import Mathlib

/-!
Verification of the PropLink server/client core (libproplink-cpp).

The definitions below are a shallow embedding of the C++ sources:
  * `Value`, `Variable` from the 4-alternative `core.h`
    (`std::variant<bool, double, int, std::string>`) used by `src/server.cpp`;
  * `CValue` from `include/core.h`
    (`std::variant<bool, double, std::string>`) used by the client and by the
    zero-copy codec;
  * the protobuf messages `VariableMessage`, `CommandMessage`,
    `ResponseMessage` as used by `server.cpp` / `client.cpp`;
  * the server request handlers (`Server::__HandleCommand` and the per-command
    handlers) and the public server API (`Server::GetVariable`,
    `Server::SetVariable`);
  * the client subscriber loop step, the reconnect controller outcome
    branches, and the entry guard of the public request calls;
  * the zero-copy wire codec of `temp(zero-copy)` (`MessageHeader`, the
    `__Send*Command` builders and the `__Handle*ZeroCopy` parsers).

C++ `double` values are represented by their 64-bit pattern (a `Nat`);
`operator==` on doubles is modelled as bit-pattern equality, which agrees with
IEEE comparison on every value exercised here (no NaN, no signed zero).
Callback side effects are not modelled beyond their outcome (normal return or
thrown exception); publishing a frame is modelled as emitting a `PubEvent`.
-/

set_option autoImplicit false

namespace Proplink

/-- The server-side value type of `core.h` used by `src/server.cpp`:
`std::variant<bool, double, int, std::string>`.  A `double` is carried as its
64-bit pattern. -/
inductive Value where
  | boolV (b : Bool)
  | doubleV (bits : Nat)
  | intV (i : Int)
  | stringV (s : String)
deriving DecidableEq

/-- A default-constructed `Value` (C++ `Value empty;`): `std::variant`
value-initializes its first alternative, so this is the boolean alternative
holding `false`. -/
def defaultValue : Value := .boolV false

/-- The client-side value type of `include/core.h`:
`std::variant<bool, double, std::string>` (no integer alternative). -/
inductive CValue where
  | boolV (b : Bool)
  | doubleV (bits : Nat)
  | stringV (s : String)
deriving DecidableEq

/-- A default-constructed client `Value` — again the first alternative,
`bool`, holding `false`. -/
def defaultCValue : CValue := .boolV false

/-- The `oneof value` of the protobuf `VariableMessage`
(`double_value`, `int_value`, `bool_value`, `string_value`). -/
inductive WireVal where
  | wdouble (bits : Nat)
  | wint (i : Int)
  | wbool (b : Bool)
  | wstring (s : String)
deriving DecidableEq

/-- Protobuf `VariableMessage`: `name`, the value oneof (`none` models
`VALUE_NOT_SET`), and `read_only`. -/
structure VariableMessage where
  name : String
  value : Option WireVal := none
  read_only : Bool := false
deriving DecidableEq

/-- Protobuf `CommandMessage.CommandType`; `UNKNOWN n` models an enum value
outside the five known constants (the `default:` branch of the dispatch
switch). -/
inductive CommandType where
  | GET_VARIABLE
  | SET_VARIABLE
  | GET_ALL_VARIABLES
  | GET_ALL_TRIGGERS
  | EXECUTE_TRIGGER
  | UNKNOWN (code : Nat)
deriving DecidableEq

/-- Protobuf `CommandMessage`.  `trigger` carries the name of the
`TriggerMessage` submessage; `none` models `has_trigger() == false`, and
likewise for `variable`. -/
structure CommandMessage where
  command_id : Nat
  command_type : CommandType
  variable_name : String := ""
  variable' : Option VariableMessage := none
  trigger : Option String := none
deriving DecidableEq

/-- Protobuf `ResponseMessage` with its optional fields. -/
structure ResponseMessage where
  command_id : Nat := 0
  success : Bool := false
  error_message : Option String := none
  message : Option String := none
  variable' : Option VariableMessage := none
  variables' : List VariableMessage := []
  triggers : List String := []
deriving DecidableEq

/-- Outcome of running a user callback: normal return or a thrown exception
(the server catches `std::bad_variant_access` and `std::exception` alike). -/
inductive CbOutcome where
  | ok
  | exn
deriving DecidableEq

/-- Server catalog entry (`Server::PropertyWithCallback`): stored value,
read-only flag, optional on-change callback.  The callback is modelled by the
outcome it produces on a given value. -/
structure VarEntry where
  value : Value
  read_only : Bool
  callback : Option (Value → CbOutcome) := none

/-- `std::map`-style association list lookup (`map::find`). -/
def lookupAssoc {α : Type} : List (String × α) → String → Option α
  | [], _ => none
  | (k, v) :: rest, key => if k = key then some v else lookupAssoc rest key

/-- `std::map`-style insert-or-assign (`map[key] = v`): replaces the binding
in place if present, appends otherwise. -/
def insertAssoc {α : Type} : List (String × α) → String → α → List (String × α)
  | [], key, v => [(key, v)]
  | (k, v') :: rest, key, v =>
      if k = key then (key, v) :: rest else (k, v') :: insertAssoc rest key v

/-- The server's variable catalog `variables_`. -/
abbrev VarMap := List (String × VarEntry)

/-- The stored value of a catalog entry, if the name is registered. -/
def lookupValue (m : VarMap) (key : String) : Option Value :=
  (lookupAssoc m key).map (fun e => e.value)

/-- Server state: variable catalog, trigger catalog (only the presence of a
name is observable through the handlers), the `running_` flag and whether the
external endpoint pair was configured. -/
structure ServerState where
  vars : VarMap
  triggers : List String := []
  running : Bool := true
  hasExternal : Bool := false

/-- Serialization of a stored `Value` into the `VariableMessage` oneof
(the `holds_alternative` cascade of `__HandleGetVariable`,
`__HandleGetAllVariables` and `Server::SetVariable`). -/
def Value.toWire : Value → WireVal
  | .doubleV bits => .wdouble bits
  | .intV i => .wint i
  | .boolV b => .wbool b
  | .stringV s => .wstring s

/-- The variant discriminator of a stored `Value`. -/
inductive ValKind where
  | kBool
  | kDouble
  | kInt
  | kString
deriving DecidableEq

def Value.kind : Value → ValKind
  | .boolV _ => .kBool
  | .doubleV _ => .kDouble
  | .intV _ => .kInt
  | .stringV _ => .kString

/-- The kind word the type-mismatch message prints for a stored value. -/
def Value.kindWord : Value → String
  | .boolV _ => "boolean"
  | .doubleV _ => "double"
  | .intV _ => "int"
  | .stringV _ => "string"

/-- The `value_case()` discriminator of an incoming `VariableMessage`;
`none` models `VALUE_NOT_SET`. -/
def wireKind : Option WireVal → Option ValKind
  | none => none
  | some (.wdouble _) => some .kDouble
  | some (.wint _) => some .kInt
  | some (.wbool _) => some .kBool
  | some (.wstring _) => some .kString

def WireVal.toValue : WireVal → Value
  | .wdouble bits => .doubleV bits
  | .wint i => .intV i
  | .wbool b => .boolV b
  | .wstring s => .stringV s

/-- A frame sent on a publisher socket: `internal_publisher_->send` or
`external_publisher_->send`. -/
inductive PubEvent where
  | internal (m : VariableMessage)
  | external (m : VariableMessage)
deriving DecidableEq

def PubEvent.isInternal : PubEvent → Bool
  | .internal _ => true
  | .external _ => false

/-- Result of a request handler: the reply, the catalog after the handler ran,
and the frames it published on the notification channel. -/
structure HandleResult where
  response : ResponseMessage
  vars : VarMap
  notifications : List PubEvent

/-- One step of the per-kind `if/else` cascade of `__HandleSetVariable`
(lines 351-410 of `src/server.cpp`): either the incoming `value_case` does not
match the stored alternative (type mismatch, with the kind word the message
prints), or the write proceeds with the new stored value and the
change flag (`changed` is set only when the payload differs). -/
inductive SetStep where
  | mismatch (kindWord : String)
  | proceed (newValue : Value) (changed : Bool)

def setStep : Value → Option WireVal → SetStep
  | .doubleV old, some (.wdouble nv) => .proceed (.doubleV nv) (old ≠ nv)
  | .doubleV _, _ => .mismatch "double"
  | .intV old, some (.wint nv) => .proceed (.intV nv) (old ≠ nv)
  | .intV _, _ => .mismatch "int"
  | .boolV old, some (.wbool nv) => .proceed (.boolV nv) (old ≠ nv)
  | .boolV _, _ => .mismatch "boolean"
  | .stringV old, some (.wstring nv) => .proceed (.stringV nv) (old ≠ nv)
  | .stringV _, _ => .mismatch "string"

/-- The type-mismatch error text of `__HandleSetVariable`. -/
def mismatchMsg (name kindWord : String) : String :=
  "Type mismatch: Variable \x27" ++ name ++ "\x27 is " ++ kindWord ++
    ", but received non-" ++ kindWord ++ " value"

/-- `Server::__HandleSetVariable` (src/server.cpp lines 323-433).  Checks, in
order: presence of the `variable` submessage, registration, the read-only
flag, and the stored/incoming kind agreement; on a kind match it writes the
new value (a no-op when equal), then — outside the lock — invokes the
on-change callback when the value changed, turning a thrown exception into an
error reply while keeping the already-updated catalog.  The function sends
nothing on the notification channel. -/
def handleSetVariable (st : ServerState) (cmd : CommandMessage)
    (response : ResponseMessage) : HandleResult :=
  match cmd.variable' with
  | none =>
      ⟨{ response with
          success := false,
          error_message := some "Variable not specified" }, st.vars, []⟩
  | some prop =>
    match lookupAssoc st.vars prop.name with
    | none =>
        ⟨{ response with
            success := false,
            error_message := some ("Variable not found: " ++ prop.name) },
         st.vars, []⟩
    | some e =>
      if e.read_only then
        ⟨{ response with
            success := false,
            error_message := some ("Variable " ++ prop.name ++ " is READ ONLY") },
         st.vars, []⟩
      else
        match setStep e.value prop.value with
        | .mismatch kw =>
            ⟨{ response with
                success := false,
                error_message := some (mismatchMsg prop.name kw) }, st.vars, []⟩
        | .proceed newValue changed =>
          let vars' := insertAssoc st.vars prop.name { e with value := newValue }
          let okResp : ResponseMessage :=
            { response with
              success := true,
              message := some ("Variable updated: " ++ prop.name) }
          match e.callback, changed with
          | some cb, true =>
            match cb newValue with
            | .exn =>
                ⟨{ response with
                    success := false,
                    error_message :=
                      some "Exception occured in server-side callback" },
                 vars', []⟩
            | .ok => ⟨okResp, vars', []⟩
          | _, _ => ⟨okResp, vars', []⟩

/-- `Server::__HandleGetVariable`. -/
def handleGetVariable (st : ServerState) (cmd : CommandMessage)
    (response : ResponseMessage) : ResponseMessage :=
  match lookupAssoc st.vars cmd.variable_name with
  | some e =>
      { response with
        success := true,
        variable' := some ⟨cmd.variable_name, some e.value.toWire, e.read_only⟩ }
  | none =>
      { response with
        success := false,
        error_message := some ("Variable not found: " ++ cmd.variable_name) }

/-- `Server::__HandleGetAllVariables`. -/
def handleGetAllVariables (st : ServerState) (response : ResponseMessage) :
    ResponseMessage :=
  { response with
    success := true,
    variables' := st.vars.map (fun p => ⟨p.1, some p.2.value.toWire, p.2.read_only⟩) }

/-- `Server::__HandleGetAllTriggers`. -/
def handleGetAllTriggers (st : ServerState) (response : ResponseMessage) :
    ResponseMessage :=
  { response with success := true, triggers := st.triggers }

/-- `Server::__HandleExecuteTrigger` / `Server::__ExecuteTrigger`: failure
occurs exactly when the trigger submessage is missing or the name is
unregistered; the trigger callback itself has no effect on any state modelled
here. -/
def handleExecuteTrigger (st : ServerState) (cmd : CommandMessage)
    (response : ResponseMessage) : ResponseMessage :=
  match cmd.trigger with
  | none =>
      { response with
        success := false,
        error_message := some "Trigger name not specified" }
  | some tname =>
      if st.triggers.contains tname then
        { response with
          success := true,
          message := some ("Trigger executed: " ++ tname) }
      else
        { response with
          success := false,
          error_message := some ("Failed to execute trigger: " ++ tname) }

/-- `Server::__HandleCommand`: builds the reply with
`response.set_command_id(command.command_id())` and dispatches on the command
type; the `default:` branch answers "Unknown command type". -/
def handleCommand (st : ServerState) (cmd : CommandMessage) : HandleResult :=
  let response : ResponseMessage := { command_id := cmd.command_id }
  match cmd.command_type with
  | .GET_VARIABLE => ⟨handleGetVariable st cmd response, st.vars, []⟩
  | .SET_VARIABLE => handleSetVariable st cmd response
  | .GET_ALL_VARIABLES => ⟨handleGetAllVariables st response, st.vars, []⟩
  | .GET_ALL_TRIGGERS => ⟨handleGetAllTriggers st response, st.vars, []⟩
  | .EXECUTE_TRIGGER => ⟨handleExecuteTrigger st cmd response, st.vars, []⟩
  | .UNKNOWN _ =>
      ⟨{ response with
          success := false,
          error_message := some "Unknown command type" }, st.vars, []⟩

/-- `Server::GetVariable` (src/server.cpp lines 117-127): the stored value, or
a default-constructed `Value` when the name is not registered. -/
def serverGetVariable (st : ServerState) (name : String) : Value :=
  match lookupAssoc st.vars name with
  | some e => e.value
  | none => defaultValue

/-- `Server::SetVariable` (src/server.cpp lines 129-174): unknown names only
log; an equal value returns with no side effect ("Prevents binding loop");
otherwise the value is replaced and, if the server is running, one
`VariableUpdate` frame is sent on the internal publisher and one more on the
external publisher when that endpoint pair is configured.  The on-change
callback is never invoked here. -/
def serverSetVariable (st : ServerState) (name : String) (value : Value) :
    ServerState × List PubEvent :=
  match lookupAssoc st.vars name with
  | some e =>
    if e.value = value then (st, [])
    else
      let st' := { st with vars := insertAssoc st.vars name { e with value := value } }
      if st.running then
        let varMsg : VariableMessage := ⟨name, some value.toWire, e.read_only⟩
        (st', .internal varMsg ::
          (if st.hasExternal then [.external varMsg] else []))
      else (st', [])
  | none => (st, [])

/-- Client subscriber state (`client.cpp`): `slots_` maps a variable name to
the callback registered for it (callbacks are tracked by an identifier, since
only which callback runs and with which value is observable), and
`slots_last_known_values_` holds the per-name last known value used for
duplicate suppression. -/
structure ClientSubState where
  slots : List (String × Nat)
  lastKnown : List (String × CValue)

/-- `Client::RegisterCallback` (client.cpp lines 224-229): stores the callback
and initializes the last-known entry to a default-constructed `Value()`. -/
def registerCallback (st : ClientSubState) (name : String) (cb : Nat) :
    ClientSubState :=
  { slots := insertAssoc st.slots name cb,
    lastKnown := insertAssoc st.lastKnown name defaultCValue }

/-- `Client::__ExtractValue` (client.cpp lines 553-562): string, then numeric
(double), then bool; anything else — including a value kind this client build
has no accessor for — yields a default-constructed `Value`. -/
def extractValueClient (varmsg : VariableMessage) : CValue :=
  match varmsg.value with
  | some (.wstring s) => .stringV s
  | some (.wdouble bits) => .doubleV bits
  | some (.wbool b) => .boolV b
  | _ => defaultCValue

/-- The subscriber branch of `Client::__WorkerLoop` (client.cpp lines
507-542) for one received `VariableUpdate`: look up the callback under the
callback lock; if none is registered, do nothing; otherwise extract the value
and compare it with the last known value — equal means skip, different means
invoke the callback.  The returned list records the callback invocations
(callback identifier and delivered value).  Neither `slots_` nor
`slots_last_known_values_` is modified on this path. -/
def handleNotification (st : ClientSubState) (varmsg : VariableMessage) :
    ClientSubState × List (Nat × CValue) :=
  match lookupAssoc st.slots varmsg.name with
  | none => (st, [])
  | some cb =>
    let value := extractValueClient varmsg
    match lookupAssoc st.lastKnown varmsg.name with
    | some last => if last = value then (st, []) else (st, [(cb, value)])
    | none => (st, [(cb, value)])

/-- Iterated subscriber handling of a finite notification sequence,
accumulating all callback invocations in order. -/
def runNotifications (st : ClientSubState) (msgs : List VariableMessage) :
    ClientSubState × List (Nat × CValue) :=
  msgs.foldl
    (fun acc m =>
      let next := handleNotification acc.1 m
      (next.1, acc.2 ++ next.2))
    (st, [])

/-- The client's outstanding requests: `pending_responses_` (sync requests,
each holding a promise, keyed by command id) and `async_responses_` (async
requests, each holding a user callback, keyed by command id). -/
structure ClientCorrelation where
  pending : List Nat
  asyncCbs : List Nat
deriving DecidableEq

/-- What one reconnect-branch pass of `Client::__WorkerLoop` does to the
outstanding requests: the responses set on sync promises, the responses passed
to async callbacks, the maps afterwards, and the `connected_` / `running_`
flags afterwards. -/
structure ReconnectOutcome where
  promiseCompletions : List ResponseMessage
  asyncInvocations : List ResponseMessage
  pendingAfter : List Nat
  asyncCbsAfter : List Nat
  connected : Bool
  running : Bool

/-- `max_reconnect_attempts` in `Client::__WorkerLoop`. -/
def maxReconnectAttempts : Nat := 5

/-- The error response built for an outstanding request when a reconnect
succeeds. -/
def connResetResponse (id : Nat) : ResponseMessage :=
  { command_id := id, success := false,
    error_message := some "Connection reset during operation" }

/-- The error response built for an outstanding sync request when the
reconnect attempts are exhausted. -/
def reconnectFailedResponse (id : Nat) : ResponseMessage :=
  { command_id := id, success := false,
    error_message := some "Failed to reconnect after maximum attempts" }

/-- The reconnect-success branch (client.cpp lines 398-425): every pending
sync promise is completed with "Connection reset during operation", every
async callback is invoked with the same error, both maps are cleared, and the
client stays running and becomes connected again. -/
def onReconnectSuccess (c : ClientCorrelation) : ReconnectOutcome :=
  { promiseCompletions := c.pending.map connResetResponse,
    asyncInvocations := c.asyncCbs.map connResetResponse,
    pendingAfter := [], asyncCbsAfter := [],
    connected := true, running := true }

/-- The reconnect-exhaustion branch (client.cpp lines 434-454): every pending
sync promise is completed with "Failed to reconnect after maximum attempts",
but `async_responses_` is only cleared — no async callback is invoked on this
path.  `connected_` and `running_` are set to false and the loop breaks. -/
def onReconnectExhausted (c : ClientCorrelation) : ReconnectOutcome :=
  { promiseCompletions := c.pending.map reconnectFailedResponse,
    asyncInvocations := [],
    pendingAfter := [], asyncCbsAfter := [],
    connected := false, running := false }

/-- The shared entry guard of the client's public request calls
(`if (!connected_ && !Connect())` — client.cpp lines 93-97, 120-124, 146-150,
174-177, 201-204): `Connect()` is evaluated exactly when the client is not
connected; the "Not connected to server" failure return is taken only when
that connection attempt also fails, otherwise the request proceeds. -/
structure EntryTrace where
  connectAttempted : Bool
  notConnectedError : Bool
  proceeds : Bool
deriving DecidableEq

def requestEntry (connected connectSucceeds : Bool) : EntryTrace :=
  { connectAttempted := !connected,
    notConnectedError := !connected && !connectSucceeds,
    proceeds := !(!connected && !connectSucceeds) }

namespace ZC

/-! The zero-copy wire codec of `temp(zero-copy)`.  Payloads are byte lists
(`List Nat`, one entry per byte); C++ `std::string` names and string values
are byte strings here.  The fixed header is kept structured (its three
fields), matching `struct MessageHeader`; `uint32` fields are reduced mod
`2^32`.  Reads past the end of a buffer — undefined behaviour in the C++ —
are modelled as a "truncated message" parse failure; they occur on no encoded
message. -/

def MSG_GET_VARIABLE : Nat := 1
def MSG_SET_VARIABLE : Nat := 2
def MSG_GET_ALL_VARIABLES : Nat := 3
def MSG_GET_ALL_TRIGGERS : Nat := 4
def MSG_EXECUTE_TRIGGER : Nat := 5
def MSG_VARIABLE_UPDATE : Nat := 6

def VAL_TYPE_NUMERIC : Nat := 1
def VAL_TYPE_BOOL : Nat := 2
def VAL_TYPE_STRING : Nat := 3

def RESP_SUCCESS : Nat := 1
def RESP_ERROR : Nat := 0

/-- The value type of this branch (`core.h` in `temp(zero-copy)`):
`std::variant<bool, double, std::string>` — numeric (a double, carried as its
64-bit pattern), bool, and byte-string.  There is no integer alternative and
no integer wire kind. -/
inductive ZValue where
  | num (bits : Nat)
  | bl (b : Bool)
  | str (s : List Nat)
deriving DecidableEq

/-- `struct MessageHeader { uint8_t msg_type; uint32_t msg_id;
uint32_t payload_size; }`. -/
structure MessageHeader where
  msg_type : Nat
  msg_id : Nat
  payload_size : Nat
deriving DecidableEq

/-- One wire message: the fixed header followed by `payload_size` payload
bytes. -/
structure WireMsg where
  header : MessageHeader
  payload : List Nat
deriving DecidableEq

/-- `k` little-endian bytes of `n` (the in-memory form of the fixed-width
`double` / `uint32` fields on a little-endian target). -/
def leBytes : Nat → Nat → List Nat
  | 0, _ => []
  | k + 1, n => n % 256 :: leBytes k (n / 256)

/-- Read back a little-endian byte list. -/
def fromLE : List Nat → Nat
  | [] => 0
  | b :: bs => b + 256 * fromLE bs

/-- Read `k` bytes from the front of a buffer (a fixed-width field load);
fails when the buffer is shorter. -/
def readLE (k : Nat) (data : List Nat) : Option (Nat × List Nat) :=
  if k ≤ data.length then some (fromLE (data.take k), data.drop k) else none

/-- Serialize a value: the kind byte, then the payload
(`__SendSetVariableCommand` / `__SendVariableUpdate` / the GetVariable reply
path). -/
def encValue : ZValue → List Nat
  | .num bits => VAL_TYPE_NUMERIC :: leBytes 8 bits
  | .bl b => [VAL_TYPE_BOOL, if b then 1 else 0]
  | .str s => VAL_TYPE_STRING :: (leBytes 4 s.length ++ s)

/-- Parse a value in `Server::__HandleSetVariableZeroCopy` (lines 312-329):
kind byte 1 reads a double, 2 a bool, 3 a length-prefixed string; any other
kind byte is rejected with "Invalid value type". -/
def decValue (data : List Nat) : Except String ZValue :=
  match data with
  | [] => .error "truncated message"
  | t :: rest =>
    if t = VAL_TYPE_NUMERIC then
      match readLE 8 rest with
      | some (bits, _) => .ok (.num bits)
      | none => .error "truncated message"
    else if t = VAL_TYPE_BOOL then
      match rest with
      | b :: _ => .ok (.bl (b != 0))
      | [] => .error "truncated message"
    else if t = VAL_TYPE_STRING then
      match readLE 4 rest with
      | some (len, rest2) =>
          if len ≤ rest2.length then .ok (.str (rest2.take len))
          else .error "truncated message"
      | none => .error "truncated message"
    else .error "Invalid value type"

/-- Parse a value in `Client::__HandleZeroCopyVariableUpdate` (lines
267-281): same three kinds, but an unknown kind byte leaves the
default-constructed `Value` (the bool alternative holding false) instead of
failing. -/
def decUpdateValue (data : List Nat) : Except String ZValue :=
  match data with
  | [] => .error "truncated message"
  | t :: rest =>
    if t = VAL_TYPE_NUMERIC then
      match readLE 8 rest with
      | some (bits, _) => .ok (.num bits)
      | none => .error "truncated message"
    else if t = VAL_TYPE_BOOL then
      match rest with
      | b :: _ => .ok (.bl (b != 0))
      | [] => .error "truncated message"
    else if t = VAL_TYPE_STRING then
      match readLE 4 rest with
      | some (len, rest2) =>
          if len ≤ rest2.length then .ok (.str (rest2.take len))
          else .error "truncated message"
      | none => .error "truncated message"
    else .ok (.bl false)

/-- `std::string(reinterpret_cast<const char*>(data))`: the bytes up to the
first NUL, and the buffer advanced past the terminator. -/
def readName (data : List Nat) : List Nat × List Nat :=
  let name := data.takeWhile (fun b => b ≠ 0)
  (name, data.drop (name.length + 1))

/-- The six wire message kinds of this codec (the five commands and the
variable-update notification). -/
inductive Msg where
  | getVariable (id : Nat) (name : List Nat)
  | setVariable (id : Nat) (name : List Nat) (v : ZValue)
  | getAllVariables (id : Nat)
  | getAllTriggers (id : Nat)
  | executeTrigger (id : Nat) (name : List Nat)
  | variableUpdate (name : List Nat) (ro : Bool) (v : ZValue)
deriving DecidableEq

/-- Well-formedness of a message as the C++ produces it: names are
NUL-free byte strings, double patterns fit 64 bits, string lengths fit the
`uint32` length prefix, command ids fit `uint32`. -/
def ZValue.wf : ZValue → Prop
  | .num bits => bits < 256 ^ 8
  | .bl _ => True
  | .str s => s.length < 256 ^ 4

def Msg.wf : Msg → Prop
  | .getVariable id name => id < 2 ^ 32 ∧ 0 ∉ name
  | .setVariable id name v => id < 2 ^ 32 ∧ 0 ∉ name ∧ v.wf
  | .getAllVariables id => id < 2 ^ 32
  | .getAllTriggers id => id < 2 ^ 32
  | .executeTrigger id name => id < 2 ^ 32 ∧ 0 ∉ name
  | .variableUpdate name _ v => 0 ∉ name ∧ v.wf

instance : DecidablePred ZValue.wf := fun v => by
  cases v <;> simp [ZValue.wf] <;> infer_instance

instance : DecidablePred Msg.wf := fun m => by
  cases m <;> simp [Msg.wf] <;> infer_instance

/-- The message builders: `Client::__SendGetVariableCommand`,
`__SendSetVariableCommand`, `__SendGetAllVariablesCommand`,
`__SendGetAllTriggersCommand`, `__SendExecuteTriggerCommand`, and
`Server::__SendVariableUpdate`.  Names are written NUL-terminated; the
variable update also writes the read-only flag byte before the value. -/
def encode : Msg → WireMsg
  | .getVariable id name =>
      ⟨⟨MSG_GET_VARIABLE, id % 2 ^ 32, (name.length + 1) % 2 ^ 32⟩,
       name ++ [0]⟩
  | .setVariable id name v =>
      let vb := encValue v
      ⟨⟨MSG_SET_VARIABLE, id % 2 ^ 32, (name.length + 1 + vb.length) % 2 ^ 32⟩,
       name ++ [0] ++ vb⟩
  | .getAllVariables id => ⟨⟨MSG_GET_ALL_VARIABLES, id % 2 ^ 32, 0⟩, []⟩
  | .getAllTriggers id => ⟨⟨MSG_GET_ALL_TRIGGERS, id % 2 ^ 32, 0⟩, []⟩
  | .executeTrigger id name =>
      ⟨⟨MSG_EXECUTE_TRIGGER, id % 2 ^ 32, (name.length + 1) % 2 ^ 32⟩,
       name ++ [0]⟩
  | .variableUpdate name ro v =>
      let vb := encValue v
      ⟨⟨MSG_VARIABLE_UPDATE, 0, (name.length + 1 + 1 + vb.length) % 2 ^ 32⟩,
       name ++ [0] ++ ((if ro then 1 else 0) :: vb)⟩

/-- The inbound dispatch: `Server::__HandleZeroCopyMessage` for the five
command kinds (name extraction as in the individual handlers, value parsing
as in `__HandleSetVariableZeroCopy`), `Client::__HandleZeroCopyVariableUpdate`
for the notification kind, and "Unknown command type" for any other type
byte. -/
def decode (w : WireMsg) : Except String Msg :=
  let id := w.header.msg_id
  if w.header.msg_type = MSG_GET_VARIABLE then
    .ok (.getVariable id (readName w.payload).1)
  else if w.header.msg_type = MSG_SET_VARIABLE then
    let parsed := readName w.payload
    (decValue parsed.2).map (fun v => .setVariable id parsed.1 v)
  else if w.header.msg_type = MSG_GET_ALL_VARIABLES then
    .ok (.getAllVariables id)
  else if w.header.msg_type = MSG_GET_ALL_TRIGGERS then
    .ok (.getAllTriggers id)
  else if w.header.msg_type = MSG_EXECUTE_TRIGGER then
    .ok (.executeTrigger id (readName w.payload).1)
  else if w.header.msg_type = MSG_VARIABLE_UPDATE then
    let parsed := readName w.payload
    match parsed.2 with
    | roByte :: rest =>
        (decUpdateValue rest).map
          (fun v => .variableUpdate parsed.1 (roByte != 0) v)
    | [] => .error "truncated message"
  else .error "Unknown command type"

end ZC

theorem lookupAssoc_insertAssoc {α : Type} (m : List (String × α))
    (key : String) (v : α) : lookupAssoc (insertAssoc m key v) key = some v := by
  induction m with
  | nil => simp [insertAssoc, lookupAssoc]
  | cons hd tl ih =>
    by_cases h : hd.1 = key
    · simp [insertAssoc, h, lookupAssoc]
    · simp [insertAssoc, h, lookupAssoc, ih]

/-- C10: `Server::GetVariable` on an unregistered name returns the
default-constructed `Value`, which is the boolean alternative holding
`false`; hence the result coincides with that for any registered boolean
variable currently holding `false`. -/
theorem getVariable_absent_is_default_bool (st : ServerState) (name : String)
    (h : lookupAssoc st.vars name = none) :
    serverGetVariable st name = Value.boolV false ∧
    ∀ (st2 : ServerState) (name2 : String) (e : VarEntry),
      lookupAssoc st2.vars name2 = some e → e.value = .boolV false →
      serverGetVariable st2 name2 = serverGetVariable st name := by
  constructor
  · simp [serverGetVariable, h, defaultValue]
  · intro st2 name2 e h2 hv
    simp [serverGetVariable, h, h2, hv, defaultValue]

theorem getVariable_absent_is_default_bool_witness :
    serverGetVariable ⟨[("connected", ⟨.boolV false, false, none⟩)], [], true, false⟩
        "exposure" = Value.boolV false ∧
    serverGetVariable ⟨[("connected", ⟨.boolV false, false, none⟩)], [], true, false⟩
        "connected" =
      serverGetVariable ⟨[("connected", ⟨.boolV false, false, none⟩)], [], true, false⟩
        "exposure" := by
  have h := getVariable_absent_is_default_bool
    ⟨[("connected", ⟨.boolV false, false, none⟩)], [], true, false⟩ "exposure" rfl
  exact ⟨h.1, h.2 _ "connected" ⟨.boolV false, false, none⟩ rfl rfl⟩

/-- C8 counterexample: with the client not connected, the public request
entry guard always evaluates `Connect()` (a connection attempt), and when
that attempt succeeds the call does not return the "Not connected to server"
error at all — contradicting the claim that every such call returns the
error immediately without any connection attempt. -/
theorem closed_request_tries_connect :
    (requestEntry false false).connectAttempted = true ∧
    (requestEntry false true).notConnectedError = false ∧
    (requestEntry false true).proceeds = true := by
  decide

/-- C8 as amended: a public request call made while the client is not
connected first attempts `Connect()`; it returns the "Not connected to
server" failure exactly when that attempt fails, and proceeds with the
request exactly when it succeeds. -/
theorem closed_request_guard (connected connectSucceeds : Bool)
    (h : connected = false) :
    (requestEntry connected connectSucceeds).connectAttempted = true ∧
    (requestEntry connected connectSucceeds).notConnectedError = !connectSucceeds ∧
    (requestEntry connected connectSucceeds).proceeds = connectSucceeds := by
  subst h
  cases connectSucceeds <;> simp [requestEntry]

theorem closed_request_guard_witness :
    (requestEntry false false).connectAttempted = true ∧
    (requestEntry false false).notConnectedError = !false ∧
    (requestEntry false false).proceeds = false :=
  closed_request_guard false false rfl

/-- C2 failing input: after `RegisterCallback("x", cb)` the last-known value
for "x" is the default (bool `false`); two consecutive notifications carrying
the same numeric value then invoke the callback twice — the subscriber
branch compares against the stored last-known value but never updates it, so
the claimed update of `last_delivered_value[name]` does not happen and
consecutive equal values are not suppressed. -/
theorem subscriber_dedup_never_updates :
    (runNotifications (registerCallback ⟨[], []⟩ "x" 0)
        [⟨"x", some (.wdouble 1), false⟩, ⟨"x", some (.wdouble 1), false⟩]).2 =
      [(0, CValue.doubleV 1), (0, CValue.doubleV 1)] ∧
    (runNotifications (registerCallback ⟨[], []⟩ "x" 0)
        [⟨"x", some (.wdouble 1), false⟩, ⟨"x", some (.wdouble 1), false⟩]).1.lastKnown =
      [("x", defaultCValue)] := by
  exact ⟨rfl, rfl⟩

/-- C3 counterexample: on reconnect exhaustion the async correlation map is
cleared without any callback invocation, so an outstanding async request's
callback is never completed with the "Failed to reconnect after maximum
attempts" error the claim promises. -/
theorem reconnect_exhaustion_drops_async :
    (onReconnectExhausted ⟨[1], [2]⟩).asyncInvocations = [] ∧
    (⟨[1], [2]⟩ : ClientCorrelation).asyncCbs ≠ [] := by
  exact ⟨rfl, by decide⟩

/-- C3 as amended: when the reconnect controller exhausts its 5 attempts,
every outstanding sync request is completed with an error response whose
message is "Failed to reconnect after maximum attempts"; outstanding async
requests are discarded without their callbacks being invoked; both maps are
cleared, the loop exits (`running_ = false`) and the client becomes
non-operating (`connected_ = false`). -/
theorem reconnect_exhaustion_sync_only (c : ClientCorrelation) :
    maxReconnectAttempts = 5 ∧
    (∀ id ∈ c.pending,
      reconnectFailedResponse id ∈ (onReconnectExhausted c).promiseCompletions) ∧
    (onReconnectExhausted c).promiseCompletions.length = c.pending.length ∧
    (onReconnectExhausted c).asyncInvocations = [] ∧
    (onReconnectExhausted c).pendingAfter = [] ∧
    (onReconnectExhausted c).asyncCbsAfter = [] ∧
    (onReconnectExhausted c).running = false ∧
    (onReconnectExhausted c).connected = false := by
  refine ⟨rfl, ?_, ?_, rfl, rfl, rfl, rfl, rfl⟩
  · intro id hid
    exact List.mem_map_of_mem reconnectFailedResponse hid
  · simp [onReconnectExhausted]

theorem reconnect_exhaustion_sync_only_witness :
    reconnectFailedResponse 4 ∈
      (onReconnectExhausted ⟨[4], [9]⟩).promiseCompletions ∧
    (onReconnectExhausted ⟨[4], [9]⟩).asyncInvocations = [] :=
  ⟨(reconnect_exhaustion_sync_only ⟨[4], [9]⟩).2.1 4 (by decide),
   (reconnect_exhaustion_sync_only ⟨[4], [9]⟩).2.2.2.1⟩

theorem setStep_mismatch (v : Value) (wv : Option WireVal)
    (h : wireKind wv ≠ some v.kind) : setStep v wv = .mismatch v.kindWord := by
  cases v <;> rcases wv with _ | w <;>
    first
      | rfl
      | (cases w <;> simp_all [setStep, wireKind, Value.kind, Value.kindWord])

theorem setStep_changed (v : Value) (w : WireVal)
    (hk : (WireVal.toValue w).kind = v.kind)
    (hne : v ≠ WireVal.toValue w) :
    setStep v (some w) = .proceed (WireVal.toValue w) true := by
  cases v <;> cases w <;>
    simp_all [setStep, Value.kind, WireVal.toValue]

theorem handleSetVariable_command_id (st : ServerState) (cmd : CommandMessage)
    (resp : ResponseMessage) :
    (handleSetVariable st cmd resp).response.command_id = resp.command_id := by
  unfold handleSetVariable
  repeat' split
  all_goals rfl

theorem handleSetVariable_no_pub (st : ServerState) (cmd : CommandMessage)
    (resp : ResponseMessage) :
    (handleSetVariable st cmd resp).notifications = [] := by
  unfold handleSetVariable
  repeat' split
  all_goals rfl

theorem handleGetVariable_command_id (st : ServerState) (cmd : CommandMessage)
    (resp : ResponseMessage) :
    (handleGetVariable st cmd resp).command_id = resp.command_id := by
  unfold handleGetVariable
  repeat' split
  all_goals rfl

theorem handleExecuteTrigger_command_id (st : ServerState)
    (cmd : CommandMessage) (resp : ResponseMessage) :
    (handleExecuteTrigger st cmd resp).command_id = resp.command_id := by
  unfold handleExecuteTrigger
  repeat' split
  all_goals rfl

/-- C6: for every inbound command — each of the five known command kinds and
any unknown command type — the response built by `Server::__HandleCommand`
carries a `command_id` equal to the request's `command_id`. -/
theorem response_echoes_command_id (st : ServerState) (cmd : CommandMessage) :
    (handleCommand st cmd).response.command_id = cmd.command_id := by
  unfold handleCommand
  cases cmd.command_type
  case GET_VARIABLE => exact handleGetVariable_command_id st cmd _
  case SET_VARIABLE => exact handleSetVariable_command_id st cmd _
  case GET_ALL_VARIABLES => rfl
  case GET_ALL_TRIGGERS => rfl
  case EXECUTE_TRIGGER => exact handleExecuteTrigger_command_id st cmd _
  case UNKNOWN => rfl

/-- C4: a client `SetVariable` naming a variable registered read-only is
rejected with "Variable <name> is READ ONLY" and the catalog is untouched,
while a server-side `SetVariable` on a read-only variable is not subject to
the check and replaces the stored value whenever the new value differs. -/
theorem readonly_enforcement :
    (∀ (st : ServerState) (cmd : CommandMessage) (vm : VariableMessage)
        (e : VarEntry),
      cmd.command_type = .SET_VARIABLE →
      cmd.variable' = some vm →
      lookupAssoc st.vars vm.name = some e →
      e.read_only = true →
      (handleCommand st cmd).response.success = false ∧
      (handleCommand st cmd).response.error_message =
        some ("Variable " ++ vm.name ++ " is READ ONLY") ∧
      (handleCommand st cmd).vars = st.vars) ∧
    (∀ (st : ServerState) (name : String) (value : Value) (e : VarEntry),
      lookupAssoc st.vars name = some e →
      e.read_only = true →
      e.value ≠ value →
      lookupValue (serverSetVariable st name value).1.vars name = some value) := by
  constructor
  · intro st cmd vm e hct hvm he hro
    simp [handleCommand, hct, handleSetVariable, hvm, he, hro]
  · intro st name value e he hro hne
    rcases hrun : st.running <;>
      simp [serverSetVariable, he, hne, hrun, lookupValue,
        lookupAssoc_insertAssoc]

theorem readonly_enforcement_witness :
    ((handleCommand
        ⟨[("connected", ⟨.boolV true, true, none⟩)], [], true, false⟩
        ⟨7, .SET_VARIABLE, "", some ⟨"connected", some (.wbool false), false⟩,
         none⟩).response.success = false ∧
     (handleCommand
        ⟨[("connected", ⟨.boolV true, true, none⟩)], [], true, false⟩
        ⟨7, .SET_VARIABLE, "", some ⟨"connected", some (.wbool false), false⟩,
         none⟩).response.error_message =
       some ("Variable " ++ "connected" ++ " is READ ONLY") ∧
     (handleCommand
        ⟨[("connected", ⟨.boolV true, true, none⟩)], [], true, false⟩
        ⟨7, .SET_VARIABLE, "", some ⟨"connected", some (.wbool false), false⟩,
         none⟩).vars =
       [("connected", ⟨.boolV true, true, none⟩)]) ∧
    lookupValue
      (serverSetVariable
        ⟨[("connected", ⟨.boolV true, true, none⟩)], [], true, false⟩
        "connected" (.boolV false)).1.vars "connected" =
      some (.boolV false) :=
  ⟨readonly_enforcement.1
      ⟨[("connected", ⟨.boolV true, true, none⟩)], [], true, false⟩
      ⟨7, .SET_VARIABLE, "", some ⟨"connected", some (.wbool false), false⟩,
       none⟩
      ⟨"connected", some (.wbool false), false⟩
      ⟨.boolV true, true, none⟩ rfl rfl rfl rfl,
   readonly_enforcement.2
      ⟨[("connected", ⟨.boolV true, true, none⟩)], [], true, false⟩
      "connected" (.boolV false) ⟨.boolV true, true, none⟩ rfl rfl
      (by decide)⟩

/-- C5: a client `SetVariable` whose incoming `value_case` does not match the
stored alternative is answered with the kind-specific "Type mismatch" error
and leaves the whole catalog — in particular the stored value and its kind —
exactly as it was. -/
theorem type_mismatch_leaves_state (st : ServerState) (cmd : CommandMessage)
    (vm : VariableMessage) (e : VarEntry)
    (hct : cmd.command_type = .SET_VARIABLE)
    (hvm : cmd.variable' = some vm)
    (he : lookupAssoc st.vars vm.name = some e)
    (hro : e.read_only = false)
    (hmis : wireKind vm.value ≠ some e.value.kind) :
    (handleCommand st cmd).response.success = false ∧
    (handleCommand st cmd).response.error_message =
      some (mismatchMsg vm.name e.value.kindWord) ∧
    (handleCommand st cmd).vars = st.vars := by
  simp [handleCommand, hct, handleSetVariable, hvm, he, hro,
    setStep_mismatch e.value vm.value hmis]

theorem type_mismatch_leaves_state_witness :
    (handleCommand ⟨[("fps", ⟨.intV 30, false, none⟩)], [], true, false⟩
        ⟨11, .SET_VARIABLE, "",
         some ⟨"fps", some (.wstring "high"), false⟩, none⟩).response.success =
      false ∧
    (handleCommand ⟨[("fps", ⟨.intV 30, false, none⟩)], [], true, false⟩
        ⟨11, .SET_VARIABLE, "",
         some ⟨"fps", some (.wstring "high"), false⟩, none⟩).response.error_message =
      some (mismatchMsg "fps" (Value.intV 30).kindWord) ∧
    (handleCommand ⟨[("fps", ⟨.intV 30, false, none⟩)], [], true, false⟩
        ⟨11, .SET_VARIABLE, "",
         some ⟨"fps", some (.wstring "high"), false⟩, none⟩).vars =
      [("fps", ⟨.intV 30, false, none⟩)] :=
  type_mismatch_leaves_state
    ⟨[("fps", ⟨.intV 30, false, none⟩)], [], true, false⟩
    ⟨11, .SET_VARIABLE, "", some ⟨"fps", some (.wstring "high"), false⟩, none⟩
    ⟨"fps", some (.wstring "high"), false⟩ ⟨.intV 30, false, none⟩
    rfl rfl rfl rfl (by decide)

/-- C7 counterexample: when the on-change callback throws during a client
`SetVariable`, the error message the server actually produces is
"Exception occured in server-side callback" — not the claimed
"Exception occurred in server-side callback" — while the stored value has
indeed already been updated. -/
theorem callback_exception_message_spelled :
    (handleCommand
        ⟨[("x", ⟨.intV 1, false, some (fun _ => CbOutcome.exn)⟩)], [], true, false⟩
        ⟨3, .SET_VARIABLE, "", some ⟨"x", some (.wint 2), false⟩,
         none⟩).response.error_message =
      some "Exception occured in server-side callback" ∧
    (handleCommand
        ⟨[("x", ⟨.intV 1, false, some (fun _ => CbOutcome.exn)⟩)], [], true, false⟩
        ⟨3, .SET_VARIABLE, "", some ⟨"x", some (.wint 2), false⟩,
         none⟩).response.error_message ≠
      some "Exception occurred in server-side callback" ∧
    lookupValue
      (handleCommand
        ⟨[("x", ⟨.intV 1, false, some (fun _ => CbOutcome.exn)⟩)], [], true, false⟩
        ⟨3, .SET_VARIABLE, "", some ⟨"x", some (.wint 2), false⟩,
         none⟩).vars "x" = some (.intV 2) := by
  refine ⟨rfl, ?_, rfl⟩
  intro hcontra
  have : (some "Exception occured in server-side callback" :
      Option String) = some "Exception occurred in server-side callback" :=
    hcontra
  simp at this

/-- C7 as amended: if the server-side on-change callback invoked during a
client `SetVariable` throws, the server returns an error response whose
message is "Exception occured in server-side callback" (spelled as in the
source), and at that point the stored value has already been replaced by the
new value — the update is not rolled back. -/
theorem callback_exception_error_after_update (st : ServerState)
    (cmd : CommandMessage) (vm : VariableMessage) (e : VarEntry)
    (cb : Value → CbOutcome) (w : WireVal)
    (hct : cmd.command_type = .SET_VARIABLE)
    (hvm : cmd.variable' = some vm)
    (he : lookupAssoc st.vars vm.name = some e)
    (hro : e.read_only = false)
    (hcb : e.callback = some cb)
    (hw : vm.value = some w)
    (hk : (WireVal.toValue w).kind = e.value.kind)
    (hne : e.value ≠ WireVal.toValue w)
    (hexn : cb (WireVal.toValue w) = .exn) :
    (handleCommand st cmd).response.success = false ∧
    (handleCommand st cmd).response.error_message =
      some "Exception occured in server-side callback" ∧
    lookupValue (handleCommand st cmd).vars vm.name =
      some (WireVal.toValue w) := by
  simp [handleCommand, hct, handleSetVariable, hvm, he, hro, hw,
    setStep_changed e.value w hk hne, hcb, hexn, lookupValue,
    lookupAssoc_insertAssoc]

theorem callback_exception_error_after_update_witness :
    (handleCommand
        ⟨[("gain", ⟨.doubleV 10, false, some (fun _ => CbOutcome.exn)⟩)], [],
         true, false⟩
        ⟨8, .SET_VARIABLE, "", some ⟨"gain", some (.wdouble 20), false⟩,
         none⟩).response.success = false ∧
    (handleCommand
        ⟨[("gain", ⟨.doubleV 10, false, some (fun _ => CbOutcome.exn)⟩)], [],
         true, false⟩
        ⟨8, .SET_VARIABLE, "", some ⟨"gain", some (.wdouble 20), false⟩,
         none⟩).response.error_message =
      some "Exception occured in server-side callback" ∧
    lookupValue
      (handleCommand
        ⟨[("gain", ⟨.doubleV 10, false, some (fun _ => CbOutcome.exn)⟩)], [],
         true, false⟩
        ⟨8, .SET_VARIABLE, "", some ⟨"gain", some (.wdouble 20), false⟩,
         none⟩).vars "gain" = some (WireVal.toValue (.wdouble 20)) :=
  callback_exception_error_after_update
    ⟨[("gain", ⟨.doubleV 10, false, some (fun _ => CbOutcome.exn)⟩)], [],
     true, false⟩
    ⟨8, .SET_VARIABLE, "", some ⟨"gain", some (.wdouble 20), false⟩, none⟩
    ⟨"gain", some (.wdouble 20), false⟩
    ⟨.doubleV 10, false, some (fun _ => CbOutcome.exn)⟩
    (fun _ => CbOutcome.exn) (.wdouble 20)
    rfl rfl rfl rfl rfl rfl rfl (by decide) rfl

/-- C1 counterexample: a client `SetVariable` command accepted by the
dispatch engine that changes the stored value publishes zero notifications on
the notification channel, not the claimed exactly one. -/
theorem client_set_publishes_no_notification :
    (handleCommand ⟨[("x", ⟨.intV 1, false, none⟩)], [], true, false⟩
        ⟨5, .SET_VARIABLE, "", some ⟨"x", some (.wint 2), false⟩,
         none⟩).response.success = true ∧
    lookupValue
      (handleCommand ⟨[("x", ⟨.intV 1, false, none⟩)], [], true, false⟩
        ⟨5, .SET_VARIABLE, "", some ⟨"x", some (.wint 2), false⟩,
         none⟩).vars "x" = some (.intV 2) ∧
    (handleCommand ⟨[("x", ⟨.intV 1, false, none⟩)], [], true, false⟩
        ⟨5, .SET_VARIABLE, "", some ⟨"x", some (.wint 2), false⟩,
         none⟩).notifications.length = 0 :=
  ⟨rfl, rfl, rfl⟩

/-- C1 as amended: the dispatch engine publishes no notification for any
inbound command — in particular none for an accepted, value-changing client
`SetVariable` — while a server-side `SetVariable` that changes the stored
value with the server running publishes exactly one `VariableUpdate` on the
internal notification socket (plus a copy on the external socket exactly when
the external endpoint pair is configured). -/
theorem notifications_only_from_server_set :
    (∀ (st : ServerState) (cmd : CommandMessage),
      (handleCommand st cmd).notifications = []) ∧
    (∀ (st : ServerState) (name : String) (value : Value) (e : VarEntry),
      lookupAssoc st.vars name = some e →
      e.value ≠ value →
      st.running = true →
      (serverSetVariable st name value).2 =
        .internal ⟨name, some value.toWire, e.read_only⟩ ::
          (if st.hasExternal then
            [.external ⟨name, some value.toWire, e.read_only⟩]
          else []) ∧
      (serverSetVariable st name value).2.countP PubEvent.isInternal = 1) := by
  constructor
  · intro st cmd
    unfold handleCommand
    cases cmd.command_type
    case SET_VARIABLE => exact handleSetVariable_no_pub st cmd _
    all_goals rfl
  · intro st name value e he hne hrun
    constructor
    · simp [serverSetVariable, he, hne, hrun]
    · rcases hext : st.hasExternal <;>
        simp [serverSetVariable, he, hne, hrun, hext, List.countP_cons,
          PubEvent.isInternal]

theorem notifications_only_from_server_set_witness :
    (handleCommand ⟨[("y", ⟨.stringV "idle", false, none⟩)], [], true, false⟩
        ⟨6, .SET_VARIABLE, "", some ⟨"y", some (.wstring "busy"), false⟩,
         none⟩).notifications = [] ∧
    (serverSetVariable ⟨[("y", ⟨.stringV "idle", false, none⟩)], [], true, false⟩
        "y" (.stringV "busy")).2 =
      .internal ⟨"y", some (Value.stringV "busy").toWire, false⟩ ::
        (if (false : Bool) then
          [.external ⟨"y", some (Value.stringV "busy").toWire, false⟩]
        else []) ∧
    (serverSetVariable ⟨[("y", ⟨.stringV "idle", false, none⟩)], [], true, false⟩
        "y" (.stringV "busy")).2.countP PubEvent.isInternal = 1 :=
  ⟨notifications_only_from_server_set.1
      ⟨[("y", ⟨.stringV "idle", false, none⟩)], [], true, false⟩
      ⟨6, .SET_VARIABLE, "", some ⟨"y", some (.wstring "busy"), false⟩, none⟩,
   (notifications_only_from_server_set.2
      ⟨[("y", ⟨.stringV "idle", false, none⟩)], [], true, false⟩
      "y" (.stringV "busy") ⟨.stringV "idle", false, none⟩
      rfl (by decide) rfl).1,
   (notifications_only_from_server_set.2
      ⟨[("y", ⟨.stringV "idle", false, none⟩)], [], true, false⟩
      "y" (.stringV "busy") ⟨.stringV "idle", false, none⟩
      rfl (by decide) rfl).2⟩

namespace ZC

theorem leBytes_length (k n : Nat) : (leBytes k n).length = k := by
  induction k generalizing n with
  | zero => rfl
  | succ k ih => simp [leBytes, ih]

theorem fromLE_leBytes (k n : Nat) (h : n < 256 ^ k) :
    fromLE (leBytes k n) = n := by
  induction k generalizing n with
  | zero =>
    simp [leBytes, fromLE]
    omega
  | succ k ih =>
    have hdiv : n / 256 < 256 ^ k := by
      apply Nat.div_lt_of_lt_mul
      rw [pow_succ] at h
      omega
    simp [leBytes, fromLE, ih (n / 256) hdiv]
    omega

theorem readLE_leBytes (k n : Nat) (rest : List Nat) (h : n < 256 ^ k) :
    readLE k (leBytes k n ++ rest) = some (n, rest) := by
  have hlen : (leBytes k n).length = k := leBytes_length k n
  have htake : (leBytes k n ++ rest).take k = leBytes k n :=
    List.take_left' hlen
  have hdrop : (leBytes k n ++ rest).drop k = rest :=
    List.drop_left' hlen
  have hle : k ≤ (leBytes k n ++ rest).length := by
    rw [List.length_append, hlen]
    omega
  simp [readLE, hle, htake, hdrop, fromLE_leBytes k n h, hlen,
    Nat.le_add_right]

theorem readLE_leBytes_self (k n : Nat) (h : n < 256 ^ k) :
    readLE k (leBytes k n) = some (n, []) := by
  have := readLE_leBytes k n [] h
  simpa using this

theorem takeWhile_until_nul (rest : List Nat) :
    ∀ (nm : List Nat), 0 ∉ nm →
      (nm ++ 0 :: rest).takeWhile (fun b => decide (b ≠ 0)) = nm := by
  intro nm
  induction nm with
  | nil => intro _; simp
  | cons a as ih =>
    intro h
    simp only [List.mem_cons, not_or] at h
    have ha : decide (a ≠ 0) = true := by
      simp only [decide_eq_true_eq]
      exact fun hh => h.1 hh.symm
    rw [List.cons_append, List.takeWhile_cons, if_pos ha, ih h.2]

theorem readName_append (name rest : List Nat) (h : 0 ∉ name) :
    readName (name ++ 0 :: rest) = (name, rest) := by
  unfold readName
  rw [takeWhile_until_nul rest name h]
  refine congrArg (Prod.mk name) ?_
  have hsplit : name ++ 0 :: rest = (name ++ [0]) ++ rest := by simp
  have hlen : (name ++ [0]).length = name.length + 1 := by simp
  rw [hsplit, ← hlen, List.drop_left]

theorem decValue_encValue (v : ZValue) (h : v.wf) :
    decValue (encValue v) = .ok v := by
  cases v with
  | num bits =>
    simp only [ZValue.wf] at h
    simp [encValue, decValue, VAL_TYPE_NUMERIC,
      readLE_leBytes_self 8 bits h]
  | bl b =>
    cases b <;> simp [encValue, decValue, VAL_TYPE_NUMERIC, VAL_TYPE_BOOL]
  | str s =>
    simp only [ZValue.wf] at h
    simp [encValue, decValue, VAL_TYPE_NUMERIC, VAL_TYPE_BOOL,
      VAL_TYPE_STRING, readLE_leBytes 4 s.length s h]

theorem decUpdateValue_encValue (v : ZValue) (h : v.wf) :
    decUpdateValue (encValue v) = .ok v := by
  cases v with
  | num bits =>
    simp only [ZValue.wf] at h
    simp [encValue, decUpdateValue, VAL_TYPE_NUMERIC,
      readLE_leBytes_self 8 bits h]
  | bl b =>
    cases b <;> simp [encValue, decUpdateValue, VAL_TYPE_NUMERIC, VAL_TYPE_BOOL]
  | str s =>
    simp only [ZValue.wf] at h
    simp [encValue, decUpdateValue, VAL_TYPE_NUMERIC, VAL_TYPE_BOOL,
      VAL_TYPE_STRING, readLE_leBytes 4 s.length s h]

/-- C9 as amended: the zero-copy framing codec round-trips every well-formed
wire message of its six message kinds carrying any of its three value kinds
(numeric = 1, bool = 2, string = 3): decoding the encoding of the message
yields the message again.  This codec has no fourth (integer) value kind. -/
theorem decode_encode (m : Msg) (h : m.wf) : decode (encode m) = .ok m := by
  cases m with
  | getVariable id name =>
    obtain ⟨hid, hname⟩ := h
    have hid' : id < 4294967296 := by omega
    simp [encode, decode, MSG_GET_VARIABLE, readName_append name [] hname,
      Nat.mod_eq_of_lt hid']
  | setVariable id name v =>
    obtain ⟨hid, hname, hv⟩ := h
    have hid' : id < 4294967296 := by omega
    simp [encode, decode, MSG_GET_VARIABLE, MSG_SET_VARIABLE,
      readName_append name (encValue v) hname, decValue_encValue v hv,
      Nat.mod_eq_of_lt hid', Except.map]
  | getAllVariables id =>
    have hid' : id < 4294967296 := by simp [Msg.wf] at h; omega
    simp [encode, decode, MSG_GET_VARIABLE, MSG_SET_VARIABLE,
      MSG_GET_ALL_VARIABLES, Nat.mod_eq_of_lt hid']
  | getAllTriggers id =>
    have hid' : id < 4294967296 := by simp [Msg.wf] at h; omega
    simp [encode, decode, MSG_GET_VARIABLE, MSG_SET_VARIABLE,
      MSG_GET_ALL_VARIABLES, MSG_GET_ALL_TRIGGERS, Nat.mod_eq_of_lt hid']
  | executeTrigger id name =>
    obtain ⟨hid, hname⟩ := h
    have hid' : id < 4294967296 := by omega
    simp [encode, decode, MSG_GET_VARIABLE, MSG_SET_VARIABLE,
      MSG_GET_ALL_VARIABLES, MSG_GET_ALL_TRIGGERS, MSG_EXECUTE_TRIGGER,
      readName_append name [] hname, Nat.mod_eq_of_lt hid']
  | variableUpdate name ro v =>
    obtain ⟨hname, hv⟩ := h
    cases ro <;>
      simp [encode, decode, MSG_GET_VARIABLE, MSG_SET_VARIABLE,
        MSG_GET_ALL_VARIABLES, MSG_GET_ALL_TRIGGERS, MSG_EXECUTE_TRIGGER,
        MSG_VARIABLE_UPDATE,
        readName_append name _ hname, decUpdateValue_encValue v hv,
        Except.map]

theorem decode_encode_witness :
    (Msg.setVariable 9 [102, 112, 115] (.str [104, 105])).wf ∧
    decode (encode (Msg.setVariable 9 [102, 112, 115] (.str [104, 105]))) =
      .ok (Msg.setVariable 9 [102, 112, 115] (.str [104, 105])) :=
  ⟨by decide,
   decode_encode (Msg.setVariable 9 [102, 112, 115] (.str [104, 105]))
     (by decide)⟩

/-- C9 counterexample: the claim presumes a fourth (int64) wire value kind
with discriminator 4, but this codec defines only three value kinds — a
SetVariable frame whose value-kind byte is 4 (here with an 8-byte
little-endian integer payload, as the claimed int64 kind would use) does not
decode to any message: the codec rejects it with "Invalid value type". -/
theorem codec_rejects_int_value_kind :
    decode ⟨⟨2, 9, 13⟩, [102, 112, 115] ++ [0] ++ (4 :: leBytes 8 42)⟩ =
      .error "Invalid value type" := by
  rfl

end ZC

end Proplink
